import Mathlib

/- Shallow embedding of pgrauman/nba_scores_cli (src/nba_scores_cli/nba_scores.py).
Pure display logic (box score formatting, centering math, date validation) is
translated to Lean functions; the curses refresh/input loop is modelled as an
explicit state-passing step function over a session state, with wall-clock
reads, fetch results and keystrokes supplied as an environment. Fallible
Python code (exceptions: requests errors, ord() TypeError, IndexError) is
modelled with Except. -/

namespace NbaScores

/- A per-period key of the LineScore dictionaries. In the source these are the
string keys of `away_quarter2pts` / `home_quarter2pts`, i.e. exactly the
LineScore fields whose name contains the substring PTS_: PTS_QTR1..PTS_QTR4
and PTS_OT1..PTS_OT10 (insertion order preserved by the Python dict). The
test `'OT' not in k` in box_score distinguishes the two shapes, so the key is
modelled as an inductive with the same information. -/
inductive PeriodKey where
  | qtr (n : Nat)
  | ot (n : Nat)
deriving DecidableEq

/- Embeds the Python test `'OT' in k` for a key k of the quarter-points dicts:
PTS_QTRn does not contain OT, PTS_OTn does. -/
def PeriodKey.isOT : PeriodKey → Bool
  | .qtr _ => false
  | .ot _ => true

/- Embeds `c.replace('PTS_QTR', 'Q').replace('PTS_OT', 'OT')` (line 111):
PTS_QTRn becomes Qn and PTS_OTn becomes OTn. -/
def PeriodKey.label : PeriodKey → String
  | .qtr n => "Q" ++ toString n
  | .ot n => "OT" ++ toString n

/- Python truthiness of a per-period value (int or None in the source):
None and 0 are falsy, any other int is truthy. Used by `v or ...` at
lines 110, 115, 116 of the source. -/
def truthy : Option Int → Bool
  | none => false
  | some n => n != 0

/- The fields of class NBAGame (lines 47-95) that the verified claims read.
`away_quarter2pts` / `home_quarter2pts` are the dict comprehensions
`{k: v for k, v in ls.items() if 'PTS_' in k}` (lines 71, 84), kept as
ordered association lists; values are int-or-None. The remaining NBAGame
attributes (cities, records, shooting stats, status strings) play no role in
the claims under verification. -/
structure NBAGame where
  away_abbr : String
  home_abbr : String
  away_quarter2pts : List (PeriodKey × Option Int)
  home_quarter2pts : List (PeriodKey × Option Int)
deriving DecidableEq

/- Dict lookup `d[c]` on a quarter-points dict. In the source a missing key
would raise KeyError; box_score only ever looks up keys taken from the away
dict, and the NBA API returns identical key sets for both teams, so the
lookup is total there. A missing key is mapped to none here. -/
def lookupPts (d : List (PeriodKey × Option Int)) (k : PeriodKey) : Option Int :=
  match d.find? (fun kv => kv.1 == k) with
  | some kv => kv.2
  | none => none

/- Embeds `_align_text` (lines 104-108): right-align `text` in a cell of
`tabSize` characters with exactly one trailing space. Python's
`' ' * left_spaces` yields the empty string for a non-positive count, which
truncated Nat subtraction reproduces. The source applies str() to its
argument; cells here are already strings. -/
def alignText (tabSize : Nat) (text : String) : String :=
  let rightSpaces := 1
  let leftSpaces := tabSize - rightSpaces - text.length
  String.mk (List.replicate leftSpaces ' ') ++ text ++ String.mk (List.replicate rightSpaces ' ')

/- Embeds the column selection of box_score (line 110):
`[k for k, v in self.away_quarter2pts.items() if (v or 'OT' not in k)]`.
Note the filter consults only the away team's dict. -/
def columns (g : NBAGame) : List PeriodKey :=
  (g.away_quarter2pts.filter (fun kv => truthy kv.2 || !kv.1.isOT)).map Prod.fst

/- Embeds the cell value `(d[c] or '-')` followed by str() inside _align_text
(lines 115-116): a truthy int is rendered as its decimal string, a falsy
value (None or 0) as a dash. -/
def renderPts (v : Option Int) : String :=
  if truthy v then toString (v.getD 0) else "-"

/- Embeds NBAGame.box_score (lines 97-117). The source default for tab_size
is 5; callers here pass it explicitly. -/
def box_score (g : NBAGame) (tabSize : Nat) : String :=
  let cols := columns g
  let colsClean := cols.map PeriodKey.label
  let header := String.intercalate "|" (("" :: colsClean).map (alignText tabSize))
  let fill := String.intercalate "+"
    (List.replicate (cols.length + 1) (String.mk (List.replicate tabSize '-')))
  let away := String.intercalate "|"
    ((g.away_abbr :: cols.map (fun c => renderPts (lookupPts g.away_quarter2pts c))).map
      (alignText tabSize))
  let home := String.intercalate "|"
    ((g.home_abbr :: cols.map (fun c => renderPts (lookupPts g.home_quarter2pts c))).map
      (alignText tabSize))
  String.intercalate "\n" [header, fill, away, home]

/- Modelled from the words of claim C1 (a refinement reference, not from the
source): the column set that keeps every regulation quarter and exactly those
overtime periods for which at least one of the two teams has a non-null
value. -/
def claimColumns (g : NBAGame) : List PeriodKey :=
  (g.away_quarter2pts.filter
    (fun kv => !kv.1.isOT || kv.2.isSome || (lookupPts g.home_quarter2pts kv.1).isSome)).map
    Prod.fst

/- Concrete game for claim C1: the away team has no OT1 value but the home
team does (an overtime decided while one side is recorded null). -/
def gOtNull : NBAGame :=
  { away_abbr := "BOS"
    home_abbr := "LAL"
    away_quarter2pts :=
      [(PeriodKey.qtr 1, some 30), (PeriodKey.qtr 2, some 28), (PeriodKey.qtr 3, some 25),
        (PeriodKey.qtr 4, some 27), (PeriodKey.ot 1, none)]
    home_quarter2pts :=
      [(PeriodKey.qtr 1, some 26), (PeriodKey.qtr 2, some 29), (PeriodKey.qtr 3, some 27),
        (PeriodKey.qtr 4, some 28), (PeriodKey.ot 1, some 5)] }

/- Concrete games for claim C2: identical except that the away first quarter
is 0 (played, no points) in one and null (not yet played) in the other. -/
def gQtrZero : NBAGame :=
  { away_abbr := "MIA"
    home_abbr := "DEN"
    away_quarter2pts :=
      [(PeriodKey.qtr 1, some 0), (PeriodKey.qtr 2, some 12), (PeriodKey.qtr 3, none),
        (PeriodKey.qtr 4, none)]
    home_quarter2pts :=
      [(PeriodKey.qtr 1, some 7), (PeriodKey.qtr 2, some 9), (PeriodKey.qtr 3, none),
        (PeriodKey.qtr 4, none)] }

def gQtrNull : NBAGame :=
  { gQtrZero with
    away_quarter2pts :=
      [(PeriodKey.qtr 1, none), (PeriodKey.qtr 2, some 12), (PeriodKey.qtr 3, none),
        (PeriodKey.qtr 4, none)] }

/- The mutable variables of one NBAScoresCLI run (lines 124-182).
`globalGames` is the module-level list `games` bound at line 288 and read by
_display_game / _display_all_games (lines 189, 220); no `global` statement
exists, so nothing in the class ever rebinds it. `localGames` is the `games`
name local to __init__ (the constructor parameter, rebound by the in-loop
refresh at line 154). `focus` is self.focus (-1 meaning overview),
`statusText` is self.extra_status_text, and `k` is the loop variable holding
the last keystroke. -/
structure SessionState where
  globalGames : List NBAGame
  localGames : List NBAGame
  focus : Int
  statusText : String
  k : Nat
deriving DecidableEq

/- Session state on entering the loop (lines 124-131 and the __main__ call at
line 294): k = 0, focus = -1, initial status text, and both the module-level
and the constructor-local `games` bound to the startup batch. -/
def initialState (games : List NBAGame) : SessionState :=
  { globalGames := games
    localGames := games
    focus := -1
    statusText := "# to select game"
    k := 0 }

/- Embeds `ord(str(x))` for a natural number x: for x < 10, str(x) is a
single character of code 48 + x; for x >= 10 str(x) has several characters
and ord raises TypeError. -/
def ordStr (x : Nat) : Except String Nat :=
  if x < 10 then Except.ok (48 + x) else Except.error "ord() expected a character"

/- Embeds the list comprehension `[ord(str(x)) for x in ...]`, evaluated left
to right and propagating the first exception. -/
def ordList : List Nat → Except String (List Nat)
  | [] => Except.ok []
  | x :: xs =>
    match ordStr x, ordList xs with
    | Except.ok c, Except.ok cs => Except.ok (c :: cs)
    | Except.error e, _ => Except.error e
    | _, Except.error e => Except.error e

/- Embeds `[ord(str(x)) for x in range(len(games))]` (line 157). -/
def digitKeyCodes (n : Nat) : Except String (List Nat) :=
  ordList (List.range n)

/- Embeds the keyboard-input branch of the loop (lines 157-162), reading the
pending keystroke st.k against the current local batch. `int(chr(k))` for a
key in the digit-code list is k - 48. ord of b is 98. -/
def handleKey (st : SessionState) : Except String SessionState :=
  match digitKeyCodes st.localGames.length with
  | Except.error e => Except.error e
  | Except.ok codes =>
    if st.k ∈ codes then
      Except.ok { st with focus := (st.k : Int) - 48, statusText := "Press 'b' to back" }
    else if st.k = 98 then
      Except.ok { st with focus := -1, statusText := "Press (#) to select game" }
    else Except.ok st

/- What one frame draws (lines 165-168): either the detail view of one game
or the overview list. Both _display_game and _display_all_games read the
module-level `games`, i.e. st.globalGames. -/
inductive RenderView where
  | detail (g : NBAGame)
  | overview (gs : List NBAGame)
deriving DecidableEq

/- Embeds the display dispatch (lines 164-168): with a focus, _display_game
indexes the module-level games list (`games[self.focus]`, line 189, raising
IndexError when out of range); otherwise _display_all_games lists the
module-level games (line 220). -/
def render (st : SessionState) : Except String RenderView :=
  if st.focus > -1 then
    match st.globalGames.get? st.focus.toNat with
    | some g => Except.ok (RenderView.detail g)
    | none => Except.error "IndexError: list index out of range"
  else Except.ok (RenderView.overview st.globalGames)

/- Per-iteration environment: the two wall-clock reads `int(time.time())` at
lines 152 and 174, the outcome of `get_nba_scoreboard` composed with the
NBAGame construction (lines 153-154) should it be called, and the keystroke
returned by getch at line 182. -/
structure Env where
  t1 : Nat
  t2 : Nat
  fetchResult : Except String (List NBAGame)
  nextKey : Nat

/- Embeds the fine-tick refresh (lines 151-154): when the wall-clock second
count is divisible by 5 the scoreboard is fetched and the local `games`
rebound; an exception from the fetch propagates (there is no try/except).
Returns the new local batch and whether a fetch happened. -/
def refreshStep (t1 : Nat) (fetchResult : Except String (List NBAGame))
    (gs : List NBAGame) : Except String (List NBAGame × Bool) :=
  if t1 % 5 = 0 then
    match fetchResult with
    | Except.ok gs2 => Except.ok (gs2, true)
    | Except.error e => Except.error e
  else Except.ok (gs, false)

/- Result of one loop iteration: the successor state, whether the fine tick
re-fetched data, what the frame displayed, and whether the coarse tick fired
its status pulse. -/
structure IterOut where
  st : SessionState
  didFetch : Bool
  view : RenderView
  pulsed : Bool
deriving DecidableEq

/- Embeds one iteration of the while loop (lines 145-182), in source order:
fine-tick refresh of the local batch (152-154), keyboard handling (157-162),
display dispatch (164-171), coarse-tick status pulse (173-178, setting
self.extra_status_text when the second wall-clock read is divisible by
refresh_delay), then getch storing the next keystroke (182). Any uncaught
Python exception is an Except.error ending the session. -/
def loopBody (rd : Nat) (env : Env) (st : SessionState) : Except String IterOut :=
  match refreshStep env.t1 env.fetchResult st.localGames with
  | Except.error e => Except.error e
  | Except.ok (gs2, didFetch) =>
    match handleKey { st with localGames := gs2 } with
    | Except.error e => Except.error e
    | Except.ok st2 =>
      match render st2 with
      | Except.error e => Except.error e
      | Except.ok view =>
        let pulsed := env.t2 % rd == 0
        let st3 := if pulsed then { st2 with statusText := "adfadfadsf" } else st2
        Except.ok { st := { st3 with k := env.nextKey }, didFetch := didFetch,
                    view := view, pulsed := pulsed }

/- Embeds `while (k != ord('q'))` (line 145) over a finite stream of
per-iteration environments: the guard is checked before each iteration
(ord of q is 113) and an uncaught exception aborts the session. -/
def runLoop (rd : Nat) (envs : List Env) (st : SessionState) : Except String SessionState :=
  match envs with
  | [] => Except.ok st
  | env :: rest =>
    if st.k = 113 then Except.ok st
    else
      match loopBody rd env st with
      | Except.ok out => runLoop rd rest out.st
      | Except.error e => Except.error e

/- Embeds _write_centered_text's x coordinate (line 242):
`int((self.width // 2) - (len(text) // 2) - len(text) % 2)`. Python's %
binds tighter than subtraction, and // on non-negative ints is Nat division;
the overall value may be negative for narrow widths, hence Int. -/
def write_centered_x (width : Nat) (text : String) : Int :=
  ((width / 2 : Nat) : Int) - ((text.length / 2 : Nat) : Int) - ((text.length % 2 : Nat) : Int)

/- Embeds _write_center_column's x coordinate (lines 257-259): the same
formula against width // 4, the right column shifted by width // 2. The
column argument is the literal string passed by the callers. -/
def write_center_column_x (width : Nat) (text : String) (column : String) : Int :=
  let x : Int :=
    ((width / 4 : Nat) : Int) - ((text.length / 2 : Nat) : Int) - ((text.length % 2 : Nat) : Int)
  if column == "right" then x + ((width / 2 : Nat) : Int) else x

/- Modelled from the words of claim C4 (a refinement reference, not from the
source): left padding floor(W/2) - floor(L/2) - (L mod 2) for a text of
length L in a span of width W. -/
def specLeftPad (w l : Nat) : Int :=
  ((w / 2 : Nat) : Int) - ((l / 2 : Nat) : Int) - ((l % 2 : Nat) : Int)

/- Embeds the body of the source regex `^[01]\d-[0123]\d-\d{4}$` (line 282)
on an exact ten-character string: month first digit 0 or 1, day first digit
0-3, dash separators, all other positions decimal digits. -/
def dateCore (cs : List Char) : Bool :=
  match cs with
  | [m1, m2, s1, d1, d2, s2, y1, y2, y3, y4] =>
    (m1 == '0' || m1 == '1') && m2.isDigit && s1 == '-' &&
      (d1 == '0' || d1 == '1' || d1 == '2' || d1 == '3') && d2.isDigit && s2 == '-' &&
      y1.isDigit && y2.isDigit && y3.isDigit && y4.isDigit
  | _ => false

/- Modelled from the words of claim C8 (a refinement reference, not from the
source): the body of the claimed regex `^\d\d-\d\d-\d{4}$`. -/
def claimDateCore (cs : List Char) : Bool :=
  match cs with
  | [m1, m2, s1, d1, d2, s2, y1, y2, y3, y4] =>
    m1.isDigit && m2.isDigit && s1 == '-' &&
      d1.isDigit && d2.isDigit && s2 == '-' &&
      y1.isDigit && y2.isDigit && y3.isDigit && y4.isDigit
  | _ => false

/- Acceptance of re.match with the source pattern: $ in a Python regex also
matches just before one trailing newline. -/
def matchesCodeDate (cs : List Char) : Bool :=
  dateCore cs || (cs.getLast? == some '\n' && dateCore cs.dropLast)

/- Acceptance of re.match with the pattern of claim C8 (same $ semantics). -/
def matchesClaimDate (cs : List Char) : Bool :=
  claimDateCore cs || (cs.getLast? == some '\n' && claimDateCore cs.dropLast)

/- Embeds the startup date validation of __main__ (lines 281-284): a date not
matching the source regex raises ValueError before any UI is entered, an
accepted date has its dashes replaced by slashes. -/
def validateDate (s : String) : Except String String :=
  if matchesCodeDate s.toList then
    Except.ok (String.map (fun c => if c == '-' then '/' else c) s)
  else Except.error "Invalid date input; use dashes and zero-pad like 01-15-2018"

/- Concrete session states and environments used to instantiate the claims. -/

/- Overview-mode session over a startup batch of three games. -/
def stOverview3 : SessionState := initialState [gOtNull, gQtrZero, gQtrNull]

/- The session after pressing the digit 2 from stOverview3. -/
def stFocused2 : SessionState :=
  { stOverview3 with k := 50, focus := 2, statusText := "Press 'b' to back" }

/- An iteration environment on an off-tick second (no refresh, no pulse) with
a pending non-digit, non-b keystroke x (code 120) delivered next. -/
def envNoop : Env :=
  { t1 := 31, t2 := 31, fetchResult := Except.ok [], nextKey := 0 }

/- Iteration on a fine tick whose fetch succeeds with the same three games,
followed by one whose scheduled fetch raises a network error. -/
def envFirstTick : Env :=
  { t1 := 30, t2 := 32, fetchResult := Except.ok [gOtNull, gQtrZero, gQtrNull], nextKey := 48 }

def envFailTick : Env :=
  { t1 := 35, t2 := 36, fetchResult := Except.error "requests ConnectionError", nextKey := 0 }

/- A fine-tick environment whose fetch shrinks the batch to a single game. -/
def envShrink : Env :=
  { t1 := 30, t2 := 31, fetchResult := Except.ok [gOtNull], nextKey := 0 }

/- Session focused on game 2 of a three-game batch, with a pending ignored
keystroke x (code 120). -/
def stFocusPending : SessionState := { stOverview3 with focus := 2, k := 120 }

/- Fine-tick environment that also lands on the coarse tick (t2 divisible by
the default 30s refresh delay). -/
def envBothTicks : Env :=
  { t1 := 30, t2 := 60, fetchResult := Except.ok [gQtrZero], nextKey := 113 }

/- The iteration output of loopBody 30 envBothTicks (initialState [gOtNull]),
spelled out. -/
def outBothTicks : IterOut :=
  { st := { globalGames := [gOtNull], localGames := [gQtrZero], focus := -1,
            statusText := "adfadfadsf", k := 113 }
    didFetch := true
    view := RenderView.overview [gOtNull]
    pulsed := true }

/- Session over a two-game startup batch with the digit key 1 pending. -/
def stTwoGames : SessionState := { initialState [gOtNull, gQtrZero] with k := 49 }

/- Fine-tick environment whose fetch grows the batch to three games. -/
def envGrow : Env :=
  { t1 := 30, t2 := 5, fetchResult := Except.ok [gOtNull, gQtrZero, gQtrNull], nextKey := 113 }

/- The iteration output of loopBody 30 envGrow stTwoGames, spelled out: the
local batch is rebound to the three fetched games and the digit 1 focuses
game 1, while the view still shows the two-game module-level batch. -/
def outGrow : IterOut :=
  { st := { globalGames := [gOtNull, gQtrZero], localGames := [gOtNull, gQtrZero, gQtrNull],
            focus := 1, statusText := "Press 'b' to back", k := 113 }
    didFetch := true
    view := RenderView.detail gQtrZero
    pulsed := false }

/- Session focused on game 1 of a two-game batch with the ignored keystroke x
pending, and its iteration output under envNoop. -/
def stFocusTwo : SessionState := { initialState [gOtNull, gQtrZero] with focus := 1, k := 120 }

def outFocusTwo : IterOut :=
  { st := { stFocusTwo with k := 0 }
    didFetch := false
    view := RenderView.detail gQtrZero
    pulsed := false }

/- Helper lemmas about the embedded operations. -/

theorem ordStr_ok {x c : Nat} (h : ordStr x = Except.ok c) : x < 10 ∧ c = 48 + x := by
  unfold ordStr at h
  split at h
  · next hx => injection h with h'; exact ⟨hx, h'.symm⟩
  · simp at h

theorem ordList_ok_of_small (l : List Nat) (h : ∀ x ∈ l, x < 10) :
    ordList l = Except.ok (l.map (fun x => 48 + x)) := by
  induction l with
  | nil => rfl
  | cons x xs ih =>
    have hx : x < 10 := h x (List.mem_cons_self x xs)
    have hxs := ih (fun y hy => h y (List.mem_cons_of_mem x hy))
    simp only [ordList, hxs, ordStr, if_pos hx, List.map_cons]

theorem ordList_ok_inv (l : List Nat) (cs : List Nat) (h : ordList l = Except.ok cs) :
    (∀ x ∈ l, x < 10) ∧ cs = l.map (fun x => 48 + x) := by
  induction l generalizing cs with
  | nil =>
    refine ⟨by simp, ?_⟩
    injection h with h'
    exact h'.symm
  | cons x xs ih =>
    simp only [ordList] at h
    split at h
    · next c cs' hc hcs =>
      obtain ⟨hx, rfl⟩ := ordStr_ok hc
      obtain ⟨hxs, rfl⟩ := ih cs' hcs
      injection h with h'
      refine ⟨?_, h'.symm⟩
      intro y hy
      rcases List.mem_cons.mp hy with rfl | hy'
      · exact hx
      · exact hxs y hy'
    · simp at h
    · simp at h

theorem digitKeyCodes_ok_inv {n : Nat} {cs : List Nat} (h : digitKeyCodes n = Except.ok cs) :
    n ≤ 10 ∧ cs = (List.range n).map (fun x => 48 + x) := by
  obtain ⟨hs, rfl⟩ := ordList_ok_inv _ _ h
  refine ⟨?_, rfl⟩
  by_contra hn
  push_neg at hn
  exact absurd (hs 10 (List.mem_range.mpr hn)) (by omega)

theorem digitKeyCodes_eq_of_le {n : Nat} (hn : n ≤ 10) :
    digitKeyCodes n = Except.ok ((List.range n).map (fun x => 48 + x)) :=
  ordList_ok_of_small _ (fun x hx => lt_of_lt_of_le (List.mem_range.mp hx) hn)

theorem mem_digitCodes {n k : Nat} :
    k ∈ (List.range n).map (fun x => 48 + x) ↔ ∃ d, d < n ∧ k = 48 + d := by
  simp only [List.mem_map, List.mem_range]
  constructor
  · rintro ⟨d, hd, rfl⟩; exact ⟨d, hd, rfl⟩
  · rintro ⟨d, hd, rfl⟩; exact ⟨d, hd, rfl⟩

theorem handleKey_eq (st : SessionState) (hn : st.localGames.length ≤ 10) :
    handleKey st =
      if st.k ∈ (List.range st.localGames.length).map (fun x => 48 + x) then
        Except.ok { st with focus := (st.k : Int) - 48, statusText := "Press 'b' to back" }
      else if st.k = 98 then
        Except.ok { st with focus := -1, statusText := "Press (#) to select game" }
      else Except.ok st := by
  unfold handleKey
  rw [digitKeyCodes_eq_of_le hn]

theorem handleKey_frame {st st' : SessionState} (h : handleKey st = Except.ok st') :
    st'.globalGames = st.globalGames ∧ st'.localGames = st.localGames ∧ st'.k = st.k := by
  unfold handleKey at h
  split at h
  · simp at h
  · split at h
    · injection h with h'; subst h'; exact ⟨rfl, rfl, rfl⟩
    · split at h
      · injection h with h'; subst h'; exact ⟨rfl, rfl, rfl⟩
      · injection h with h'; subst h'; exact ⟨rfl, rfl, rfl⟩

theorem handleKey_digit {st st' : SessionState} {d : Nat}
    (h : handleKey st = Except.ok st') (hk : st.k = 48 + d)
    (hdn : d < st.localGames.length) :
    st' = { st with focus := (d : Int), statusText := "Press 'b' to back" } := by
  unfold handleKey at h
  split at h
  · simp at h
  · next codes hcodes =>
    obtain ⟨hle, rfl⟩ := digitKeyCodes_ok_inv hcodes
    rw [if_pos (mem_digitCodes.mpr ⟨d, hdn, hk⟩)] at h
    injection h with h'
    subst h'
    have hfd : (st.k : Int) - 48 = (d : Int) := by
      rw [hk]; push_cast; ring
    rw [hfd]

theorem handleKey_other {st st' : SessionState}
    (h : handleKey st = Except.ok st') (hk : st.k < 48 ∨ 57 < st.k) (hb : st.k ≠ 98) :
    st' = st := by
  unfold handleKey at h
  split at h
  · simp at h
  · next codes hcodes =>
    obtain ⟨hle, rfl⟩ := digitKeyCodes_ok_inv hcodes
    have hnm : st.k ∉ (List.range st.localGames.length).map (fun x => 48 + x) := by
      intro hmem
      obtain ⟨d, hdn, hkd⟩ := mem_digitCodes.mp hmem
      have hd10 : d < 10 := lt_of_lt_of_le hdn hle
      omega
    rw [if_neg hnm, if_neg hb] at h
    injection h with h'
    exact h'.symm

theorem refreshStep_ok_inv {t1 : Nat} {f : Except String (List NBAGame)}
    {gs gs2 : List NBAGame} {b : Bool}
    (h : refreshStep t1 f gs = Except.ok (gs2, b)) :
    b = (t1 % 5 == 0) ∧ (t1 % 5 = 0 → f = Except.ok gs2) ∧ (¬t1 % 5 = 0 → gs2 = gs) := by
  unfold refreshStep at h
  split at h
  · next ht =>
    split at h
    · next gs' =>
      injection h with h'
      injection h' with h1 h2
      subst h1; subst h2
      refine ⟨?_, fun _ => rfl, fun hn => absurd ht hn⟩
      symm
      exact beq_iff_eq.mpr ht
    · cases h
  · next ht =>
    injection h with h'
    injection h' with h1 h2
    subst h1; subst h2
    refine ⟨?_, fun h5 => absurd h5 ht, fun _ => rfl⟩
    symm
    exact beq_eq_false_iff_ne.mpr ht

theorem render_ok_inv {st : SessionState} {v : RenderView} (h : render st = Except.ok v) :
    (∀ gs, v = RenderView.overview gs → gs = st.globalGames) ∧
    (∀ g, v = RenderView.detail g → ∃ i, st.globalGames.get? i = some g) := by
  unfold render at h
  split at h
  · split at h
    · next g hg =>
      injection h with h'
      subst h'
      constructor
      · intro gs hgs; cases hgs
      · intro g' hg'
        injection hg' with h''
        subst h''
        exact ⟨st.focus.toNat, hg⟩
    · simp at h
  · injection h with h'
    subst h'
    constructor
    · intro gs hgs
      injection hgs with h''
      exact h''.symm
    · intro g hg; cases hg

theorem loopBody_ok_inv {rd : Nat} {env : Env} {st : SessionState} {out : IterOut}
    (h : loopBody rd env st = Except.ok out) :
    ∃ gs2 didFetch st2 view,
      refreshStep env.t1 env.fetchResult st.localGames = Except.ok (gs2, didFetch) ∧
      handleKey { st with localGames := gs2 } = Except.ok st2 ∧
      render st2 = Except.ok view ∧
      out.st.globalGames = st2.globalGames ∧
      out.st.localGames = st2.localGames ∧
      out.st.focus = st2.focus ∧
      out.st.k = env.nextKey ∧
      out.didFetch = didFetch ∧
      out.view = view ∧
      out.pulsed = (env.t2 % rd == 0) ∧
      out.st.statusText = (if (env.t2 % rd == 0) then "adfadfadsf" else st2.statusText) := by
  unfold loopBody at h
  split at h
  · cases h
  · next gs2 didFetch h1 =>
    split at h
    · cases h
    · next st2 h2 =>
      split at h
      · cases h
      · next view h3 =>
        injection h with h'
        subst h'
        refine ⟨gs2, didFetch, st2, view, h1, h2, h3, ?_, ?_, ?_, rfl, rfl, rfl, rfl, ?_⟩ <;>
          (split <;> rfl)

theorem loopBody_global {rd : Nat} {env : Env} {st : SessionState} {out : IterOut}
    (h : loopBody rd env st = Except.ok out) :
    out.st.globalGames = st.globalGames := by
  obtain ⟨gs2, df, st2, view, h1, h2, h3, hg, -, -, -, -, -, -, -⟩ := loopBody_ok_inv h
  obtain ⟨hg2, -, -⟩ := handleKey_frame h2
  exact hg.trans hg2

theorem runLoop_global {rd : Nat} (envs : List Env) :
    ∀ st st' : SessionState, runLoop rd envs st = Except.ok st' →
      st'.globalGames = st.globalGames := by
  induction envs with
  | nil =>
    intro st st' h
    injection h with h'
    rw [h']
  | cons e rest ih =>
    intro st st' h
    unfold runLoop at h
    split at h
    · injection h with h'
      rw [h']
    · split at h
      · next out hout => exact (ih _ _ h).trans (loopBody_global hout)
      · cases h

theorem dateCore_sub (cs : List Char) (h : dateCore cs = true) : claimDateCore cs = true := by
  rcases cs with - | ⟨m1, - | ⟨m2, - | ⟨s1, - | ⟨d1, - | ⟨d2, - | ⟨s2, - | ⟨y1, - | ⟨y2, - |
    ⟨y3, - | ⟨y4, - | ⟨c11, rest⟩⟩⟩⟩⟩⟩⟩⟩⟩⟩⟩ <;>
    simp only [dateCore, claimDateCore, Bool.and_eq_true, Bool.or_eq_true, beq_iff_eq,
      Bool.false_eq_true] at h ⊢
  obtain ⟨⟨⟨⟨⟨⟨⟨⟨⟨hm1, hm2⟩, hs1⟩, hd1⟩, hd2⟩, hs2⟩, hy1⟩, hy2⟩, hy3⟩, hy4⟩ := h
  refine ⟨⟨⟨⟨⟨⟨⟨⟨⟨?_, hm2⟩, hs1⟩, ?_⟩, hd2⟩, hs2⟩, hy1⟩, hy2⟩, hy3⟩, hy4⟩
  · rcases hm1 with h1 | h1 <;> (subst h1; decide)
  · rcases hd1 with ((h1 | h1) | h1) | h1 <;> (subst h1; decide)

/- Claim theorems. -/

/-- C1 counterexample: in gOtNull the away team has no OT1 value while the
home team scored 5 in OT1, so the claim requires the OT1 column to be
included; box_score's column selection (which consults only the away dict's
truthiness) drops it, so the produced column set differs from the claimed
one. -/
theorem c1_counterexample : columns gOtNull ≠ claimColumns gOtNull := by decide

/-- C1 (amended): the box-score column set consists of all regulation
quarters plus exactly those overtime periods whose AWAY-team value is truthy
(non-null and non-zero); the home team's values are never consulted, so an
OT period whose away value is null or 0 is dropped even if the home team has
a value there. -/
theorem c1_ot_columns (g : NBAGame) (k : PeriodKey) :
    k ∈ columns g ↔
      ∃ v, (k, v) ∈ g.away_quarter2pts ∧ (truthy v = true ∨ k.isOT = false) := by
  unfold columns
  simp only [List.mem_map, List.mem_filter, Bool.or_eq_true, Bool.not_eq_true']
  constructor
  · rintro ⟨⟨k', v⟩, ⟨hm, hp⟩, rfl⟩
    exact ⟨v, hm, hp⟩
  · rintro ⟨v, hm, hp⟩
    exact ⟨(k, v), ⟨hm, hp⟩, rfl⟩

/-- C2 counterexample: gQtrZero (away Q1 = 0, played with no points) and
gQtrNull (away Q1 = null, not yet played) render to the very same box score,
and the 0 cell is rendered as the dash: the null-vs-zero distinction does
not survive into the box-score renderer, contradicting the claim that 0 is
rendered as 0 distinguishable from the dash. -/
theorem c2_counterexample :
    box_score gQtrZero 5 = box_score gQtrNull 5 ∧
    renderPts (some 0) = "-" ∧ renderPts (some 0) = renderPts none :=
  ⟨rfl, rfl, rfl⟩

/-- C2 (amended): the box-score cell renderer maps both null and 0 to the
dash (the Python expression v or '-' collapses all falsy values), and any
non-zero value to its decimal string; null and zero are therefore
indistinguishable in the output. -/
theorem c2_zero_rendered_dash (v : Option Int) :
    renderPts v = if v = none ∨ v = some 0 then "-" else toString (v.getD 0) := by
  rcases v with _ | n
  · simp [renderPts, truthy]
  · by_cases hn : n = 0
    · subst hn
      simp [renderPts, truthy]
    · simp [renderPts, truthy, hn]

/-- C3 counterexample: with a batch of 11 games, pressing the digit 2
(d = 2 < 11 = batch size) does not transition to Focused(2): the digit-code
list comprehension evaluates ord(str(10)) and raises, so no successor state
is produced at all. -/
theorem c3_counterexample :
    (handleKey { initialState (List.replicate 11 gOtNull) with k := 50 }).toOption = none :=
  rfl

/-- C3 (amended): provided the batch holds at most 10 games, the session
state machine behaves exactly as claimed: it starts in Overview (focus -1);
a digit key d with d < batch size moves to Focused(d) with the
back-navigation hint; a digit key d at or beyond the batch size changes
nothing; the b key returns to Overview with the selection hint; any other
key changes nothing; the q key exits the loop. (For 11 or more games every
keypress raises instead — see the counterexample.) -/
theorem c3_state_machine (st : SessionState) (hn : st.localGames.length ≤ 10) :
    (∀ gs : List NBAGame, (initialState gs).focus = -1) ∧
    (∀ d : Nat, d < st.localGames.length →
      handleKey { st with k := 48 + d } =
        Except.ok { st with k := 48 + d, focus := (d : Int), statusText := "Press 'b' to back" }) ∧
    (∀ d : Nat, d ≤ 9 → st.localGames.length ≤ d →
      handleKey { st with k := 48 + d } = Except.ok { st with k := 48 + d }) ∧
    (handleKey { st with k := 98 } =
      Except.ok { st with k := 98, focus := -1, statusText := "Press (#) to select game" }) ∧
    (∀ k : Nat, k < 48 ∨ 57 < k → k ≠ 98 →
      handleKey { st with k := k } = Except.ok { st with k := k }) ∧
    (∀ (rd : Nat) (e : Env) (es : List Env),
      runLoop rd (e :: es) { st with k := 113 } = Except.ok { st with k := 113 }) := by
  refine ⟨fun gs => rfl, ?_, ?_, ?_, ?_, fun rd e es => rfl⟩
  · intro d hd
    simp only [handleKey_eq { st with k := 48 + d } hn]
    rw [if_pos (mem_digitCodes.mpr ⟨d, hd, rfl⟩)]
    have hfd : (((48 + d : Nat) : Int)) - 48 = (d : Int) := by push_cast; ring
    rw [hfd]
  · intro d hd9 hdlen
    have hnm : (48 + d) ∉ (List.range st.localGames.length).map (fun x => 48 + x) := by
      intro hmem
      obtain ⟨d', hd', he⟩ := mem_digitCodes.mp hmem
      omega
    have hnb : 48 + d ≠ 98 := by omega
    simp only [handleKey_eq { st with k := 48 + d } hn]
    rw [if_neg hnm, if_neg hnb]
  · have hnm : (98 : Nat) ∉ (List.range st.localGames.length).map (fun x => 48 + x) := by
      intro hmem
      obtain ⟨d', hd', he⟩ := mem_digitCodes.mp hmem
      have : d' < 10 := lt_of_lt_of_le hd' hn
      omega
    simp only [handleKey_eq { st with k := 98 } hn]
    rw [if_neg hnm]
    simp
  · intro k hk hb
    have hnm : k ∉ (List.range st.localGames.length).map (fun x => 48 + x) := by
      intro hmem
      obtain ⟨d', hd', he⟩ := mem_digitCodes.mp hmem
      have : d' < 10 := lt_of_lt_of_le hd' hn
      omega
    simp only [handleKey_eq { st with k := k } hn]
    rw [if_neg hnm, if_neg hb]

/-- C3 witness: with the three-game batch, pressing 2 focuses game 2 with
the back hint, pressing 5 changes nothing, pressing b from Focused(2)
returns to Overview with the selection hint, and a pending q ends the loop
immediately. -/
theorem c3_state_machine_witness :
    stOverview3.localGames.length ≤ 10 ∧
    handleKey { stOverview3 with k := 50 } =
      Except.ok { stOverview3 with k := 50, focus := 2, statusText := "Press 'b' to back" } ∧
    handleKey { stOverview3 with k := 53 } = Except.ok { stOverview3 with k := 53 } ∧
    handleKey { stFocused2 with k := 98 } =
      Except.ok { stFocused2 with k := 98, focus := -1, statusText := "Press (#) to select game" } ∧
    runLoop 30 [envNoop] { stOverview3 with k := 113 } =
      Except.ok { stOverview3 with k := 113 } := by
  have hmain := c3_state_machine stOverview3 (by decide)
  have hfoc := c3_state_machine stFocused2 (by decide)
  exact ⟨by decide, hmain.2.1 2 (by decide), hmain.2.2.1 5 (by decide) (by decide),
    hfoc.2.2.2.1, hmain.2.2.2.2.2 30 envNoop []⟩

/-- C4: the centering x coordinate computed by _write_centered_text equals
floor(W/2) - floor(L/2) - (L mod 2) for every width W and text of length L;
in particular 38 for W=80, L=4 and 37 for W=80, L=5; _write_center_column
applies the same formula against half the width (a W/4-based offset), the
right column additionally offset by W/2. -/
theorem c4_centering :
    (∀ (w : Nat) (t : String), write_centered_x w t = specLeftPad w t.length) ∧
    (∀ t : String, t.length = 4 → write_centered_x 80 t = 38) ∧
    (∀ t : String, t.length = 5 → write_centered_x 80 t = 37) ∧
    (∀ (w : Nat) (t : String), write_center_column_x w t "left" = specLeftPad (w / 2) t.length) ∧
    (∀ (w : Nat) (t : String),
      write_center_column_x w t "right" =
        specLeftPad (w / 2) t.length + ((w / 2 : Nat) : Int)) := by
  have hdiv : ∀ w : Nat, w / 2 / 2 = w / 4 := by
    intro w
    rw [Nat.div_div_eq_div_mul]
  refine ⟨fun w t => rfl, ?_, ?_, ?_, ?_⟩
  · intro t ht
    unfold write_centered_x
    rw [ht]
    decide
  · intro t ht
    unfold write_centered_x
    rw [ht]
    decide
  · intro w t
    unfold write_center_column_x specLeftPad
    rw [hdiv w]
    rfl
  · intro w t
    unfold write_center_column_x specLeftPad
    rw [hdiv w]
    rfl

/-- C4 witness: the concrete even- and odd-length instances of the centering
formula at width 80. -/
theorem c4_centering_witness :
    write_centered_x 80 "GAME" = 38 ∧ write_centered_x 80 "GAMES" = 37 :=
  ⟨c4_centering.2.1 "GAME" rfl, c4_centering.2.2.1 "GAMES" rfl⟩

/-- C5: on every successful loop iteration, a data re-fetch happens exactly
when the first wall-clock read is divisible by 5, and the status pulse
happens exactly when the second wall-clock read is divisible by the refresh
interval; the pulse only rewrites the status text, and when the fine tick
did not fire the coarse tick leaves the batch untouched (it never fetches).
The two conditions are evaluated independently: each depends only on its own
clock read. -/
theorem c5_dual_cadence (rd : Nat) (env : Env) (st : SessionState) (out : IterOut)
    (h : loopBody rd env st = Except.ok out) :
    out.didFetch = (env.t1 % 5 == 0) ∧
    out.pulsed = (env.t2 % rd == 0) ∧
    (out.pulsed = true → out.st.statusText = "adfadfadsf") ∧
    (¬env.t1 % 5 = 0 → out.st.localGames = st.localGames) := by
  obtain ⟨gs2, df, st2, view, h1, h2, h3, hG, hL, hF, hK, hDF, hV, hP, hS⟩ := loopBody_ok_inv h
  obtain ⟨hb, hfok, hnof⟩ := refreshStep_ok_inv h1
  obtain ⟨-, hl2, -⟩ := handleKey_frame h2
  refine ⟨hDF.trans hb, hP, ?_, ?_⟩
  · intro hp
    rw [hS, if_pos (hP.symm.trans hp)]
  · intro hnf
    rw [hL, hl2]
    exact hnof hnf

/-- C5 witness: an iteration whose first clock read is 30 (fetch fires) and
whose second is 60 with the default 30s interval (pulse fires): the output
records a fetch, a pulse, and the pulsed status text. -/
theorem c5_dual_cadence_witness :
    outBothTicks.didFetch = true ∧ outBothTicks.pulsed = true ∧
    outBothTicks.st.statusText = "adfadfadsf" := by
  have h := c5_dual_cadence 30 envBothTicks (initialState [gOtNull]) outBothTicks rfl
  exact ⟨h.1, h.2.1, h.2.2.1 h.2.1⟩

/-- C6: the code contradicts the claim: there is no exception handling
around the in-loop fetch, so when the scheduled fetch on the second fine
tick raises, the error propagates out of the session loop and the
interactive session dies instead of keeping the previous batch and
continuing. -/
theorem c6_fetch_failure_crashes :
    runLoop 30 [envFirstTick, envFailTick] (initialState [gOtNull, gQtrZero, gQtrNull]) =
      Except.error "requests ConnectionError" :=
  rfl

/-- C7 counterexample: a refresh shrinks the batch from three games to one
while game 2 is focused and an ignored key is pending; after the iteration
the focus is still 2 (not reverted to none) with the new local batch of
length 1, and the next iteration still renders the detail view of game 2 of
the startup batch. -/
theorem c7_counterexample :
    Except.map (fun o => (o.st.focus, o.st.localGames.length, o.didFetch))
      (loopBody 30 envShrink stFocusPending) = Except.ok (2, 1, true) ∧
    Except.map (fun o => o.view)
      (loopBody 30 envNoop { stFocusPending with localGames := [gOtNull], k := 0 }) =
      Except.ok (RenderView.detail gQtrNull) :=
  ⟨rfl, rfl⟩

/-- C7 (amended): the focused index is never range-checked against a new
batch: replacing the batch leaves the focus untouched, and it only changes
when a digit key within the refreshed batch's range or the b key is
pressed. With any other pending key the focus survives an arbitrary refresh
unchanged, even when it is out of range for the new batch. -/
theorem c7_focus_unchecked (rd : Nat) (env : Env) (st : SessionState) (out : IterOut)
    (h : loopBody rd env st = Except.ok out)
    (hk : st.k < 48 ∨ 57 < st.k) (hb : st.k ≠ 98) :
    out.st.focus = st.focus := by
  obtain ⟨gs2, df, st2, view, h1, h2, h3, hG, hL, hF, hK, hDF, hV, hP, hS⟩ := loopBody_ok_inv h
  have hst2 : st2 = { st with localGames := gs2 } := handleKey_other h2 hk hb
  rw [hF, hst2]

/-- C7 witness: an off-tick iteration with the ignored key x pending leaves
the focused index of the two-game session unchanged. -/
theorem c7_focus_unchecked_witness :
    (stFocusTwo.k < 48 ∨ 57 < stFocusTwo.k) ∧ stFocusTwo.k ≠ 98 ∧
    outFocusTwo.st.focus = stFocusTwo.focus :=
  ⟨Or.inr (by decide), by decide,
    c7_focus_unchecked 30 envNoop stFocusTwo outFocusTwo rfl (Or.inr (by decide)) (by decide)⟩

/-- C8 counterexample: the string 23-01-2019 matches the claimed regex
\d\d-\d\d-\d{4} but the source pattern [01]\d-[0123]\d-\d{4} rejects it, so
startup validation raises instead of accepting it: not every string matching
the claimed regex passes validation. -/
theorem c8_counterexample :
    matchesClaimDate "23-01-2019".toList = true ∧
    matchesCodeDate "23-01-2019".toList = false ∧
    validateDate "23-01-2019" =
      Except.error "Invalid date input; use dashes and zero-pad like 01-15-2018" :=
  ⟨rfl, rfl, rfl⟩

/-- C8 (amended): a --date argument is accepted exactly when it matches the
source regex [01]\d-[0123]\d-\d{4} (anchored, dash separators); acceptance
implies the claimed \d\d-\d\d-\d{4} shape, but not conversely. -/
theorem c8_date_validation (s : String) :
    ((validateDate s).toOption.isSome = matchesCodeDate s.toList) ∧
    (matchesCodeDate s.toList = true → matchesClaimDate s.toList = true) := by
  constructor
  · unfold validateDate
    cases hb : matchesCodeDate s.toList <;> simp [Except.toOption]
  · intro h
    unfold matchesCodeDate at h
    unfold matchesClaimDate
    simp only [Bool.or_eq_true, Bool.and_eq_true] at h ⊢
    rcases h with h1 | ⟨hl, hc⟩
    · exact Or.inl (dateCore_sub _ h1)
    · exact Or.inr ⟨hl, dateCore_sub _ hc⟩

/-- C8 witness: 01-15-2019 is accepted by the source validation and matches
both the source regex and the claimed regex. -/
theorem c8_date_validation_witness :
    matchesCodeDate "01-15-2019".toList = true ∧
    matchesClaimDate "01-15-2019".toList = true ∧
    (validateDate "01-15-2019").toOption.isSome = true :=
  ⟨by decide, (c8_date_validation "01-15-2019").2 (by decide),
    ((c8_date_validation "01-15-2019").1).trans (by decide)⟩

/-- C9: the code contradicts the claim of totality: with a batch of 11
games, the digit-code enumeration evaluates ord(str(10)) and raises a
TypeError on every iteration (whatever key is pending, including the
initial 0), so keypress processing is not a total operation for batches
beyond 10 games. -/
theorem c9_eleven_games_crash :
    loopBody 30 envNoop (initialState (List.replicate 11 gOtNull)) =
      Except.error "ord() expected a character" :=
  rfl

/-- C10: the in-loop refresh rebinds only the constructor-local games list,
while the module-level list read by both render operations is never
rebound: across any successful iteration and any run of the loop the
module-level batch is invariant, the overview view shows exactly that
startup batch, the detail view shows a game drawn from it, and yet the
digit-keypress range check uses the freshly fetched local batch (a digit
below the refreshed length focuses, even if the startup batch is shorter).
-/
theorem c10_render_uses_startup_batch
    (rd : Nat) (env : Env) (st : SessionState) (out : IterOut)
    (envs : List Env) (stFin : SessionState) (gsNew : List NBAGame) (d : Nat)
    (h : loopBody rd env st = Except.ok out)
    (hrun : runLoop rd envs st = Except.ok stFin) :
    out.st.globalGames = st.globalGames ∧
    stFin.globalGames = st.globalGames ∧
    (∀ gs, out.view = RenderView.overview gs → gs = st.globalGames) ∧
    (∀ g, out.view = RenderView.detail g → ∃ i, st.globalGames.get? i = some g) ∧
    (env.t1 % 5 = 0 → env.fetchResult = Except.ok gsNew →
      out.st.localGames = gsNew ∧
      (st.k = 48 + d → d < gsNew.length → out.st.focus = (d : Int))) := by
  obtain ⟨gs2, df, st2, view, h1, h2, h3, hG, hL, hF, hK, hDF, hV, hP, hS⟩ := loopBody_ok_inv h
  obtain ⟨hb, hfok, hnof⟩ := refreshStep_ok_inv h1
  obtain ⟨hg2, hl2, hk2⟩ := handleKey_frame h2
  have hGlob : st2.globalGames = st.globalGames := hg2
  obtain ⟨hov, hdet⟩ := render_ok_inv h3
  refine ⟨hG.trans hGlob, runLoop_global envs st stFin hrun, ?_, ?_, ?_⟩
  · intro gs hgs
    exact (hov gs (hV.symm.trans hgs)).trans hGlob
  · intro g hg
    obtain ⟨i, hi⟩ := hdet g (hV.symm.trans hg)
    exact ⟨i, hGlob ▸ hi⟩
  · intro ht hfr
    have hgs2 : gs2 = gsNew := by
      have hx := hfok ht
      rw [hfr] at hx
      injection hx with h'
      exact h'.symm
    subst hgs2
    constructor
    · rw [hL, hl2]
    · intro hkd hdlen
      have hst2 := handleKey_digit h2 (show ({ st with localGames := gs2 }).k = 48 + d from hkd)
        (show d < ({ st with localGames := gs2 }).localGames.length from hdlen)
      rw [hF, hst2]

/-- C10 witness: a fine-tick fetch grows the batch from two to three games;
pressing the digit 1 focuses game 1 against the refreshed local batch while
the module-level batch (and the rendered detail game) still come from the
two-game startup batch. -/
theorem c10_witness :
    outGrow.st.globalGames = stTwoGames.globalGames ∧
    outGrow.st.localGames = [gOtNull, gQtrZero, gQtrNull] ∧
    outGrow.st.focus = 1 := by
  have h := c10_render_uses_startup_batch 30 envGrow stTwoGames outGrow [envGrow, envGrow]
    outGrow.st [gOtNull, gQtrZero, gQtrNull] 1 rfl rfl
  have hE := h.2.2.2.2 rfl rfl
  exact ⟨h.1, hE.1, hE.2 rfl (by decide)⟩

end NbaScores
